import Mathlib

/-!
Verification of the Express Parse Server repository: the failed-login rate
limiter described by the specification, and the cloud functions in
src/cloud/landmarks.js and the user cloud-function file.
-/

namespace Cloud

/-- JavaScript runtime values, as far as the cloud functions inspect them:
the code only distinguishes strings (typeof check), undefined (destructuring
defaults) and everything else. -/
inductive JSValue where
  | str : String → JSValue
  | num : Int → JSValue
  | boolean : Bool → JSValue
  | null : JSValue
  | undefined : JSValue
  deriving DecidableEq

/-- A cloud-function params object: the own enumerable properties of the
request params, as key-value pairs.  A JavaScript object has distinct keys. -/
def Params : Type := List (String × JSValue)

/-- Property lookup on a params object. -/
def lookupParam (ps : Params) (k : String) : Option JSValue :=
  match ps with
  | [] => none
  | (k2, v) :: rest => if k2 = k then some v else lookupParam rest k

/-- The JavaScript test (k in params). -/
def hasKey (ps : Params) (k : String) : Bool :=
  (lookupParam ps k).isSome

/-- Destructuring with a default, as in const { username = x } = params:
the default applies when the property is absent or its value is undefined. -/
def destructureDefault (ps : Params) (k : String) (d : JSValue) : JSValue :=
  match lookupParam ps k with
  | none => d
  | some JSValue.undefined => d
  | some v => v

/-- The login cloud function, reduced to the pair of arguments it passes to
Parse.User.logIn: const { username = admin, password = admin } = params. -/
def login (params : Params) : JSValue × JSValue :=
  (destructureDefault params ("username") (JSValue.str ("admin")),
   destructureDefault params ("password") (JSValue.str ("admin")))

/-- The signup cloud function, reduced to the username and password it sets
on the new Parse.User before signUp; same destructuring defaults as login. -/
def signup (params : Params) : JSValue × JSValue :=
  (destructureDefault params ("username") (JSValue.str ("admin")),
   destructureDefault params ("password") (JSValue.str ("admin")))

/-- The Parse error codes the landmarks cloud functions mention. -/
inductive ErrCode where
  | MISSING_OBJECT_ID : ErrCode
  | INVALID_KEY_NAME : ErrCode
  | INVALID_SESSION_TOKEN : ErrCode
  deriving DecidableEq

/-- Observable result of fetchLandmarks: resolving with a plain string (the
comma-operator return), delegating to query.get(objectId), delegating to a
find with an ascending key and selected columns, or throwing a Parse.Error. -/
inductive FetchResult where
  | resolvedString : String → FetchResult
  | getOne : String → FetchResult
  | findMany : String → List String → FetchResult
  | thrown : ErrCode → String → FetchResult
  deriving DecidableEq

/-- The fetchLandmarks cloud function from src/cloud/landmarks.js:
shouldFindMany is isEmpty(params); shouldFindOne is
Object.keys(params).length === 1 and objectId in params; a non-string
objectId hits the comma expression, which returns the string value. -/
def fetchLandmarks (params : Params) : FetchResult :=
  let shouldFindMany : Bool := params.isEmpty
  let shouldFindOne : Bool := decide (params.length = 1) && hasKey params ("objectId")
  if shouldFindOne then
    match lookupParam params ("objectId") with
    | some (JSValue.str objectId) => FetchResult.getOne objectId
    | _ => FetchResult.resolvedString ("Invalid object id")
  else if shouldFindMany then
    FetchResult.findMany ("order") ["title", "short_info", "photo_thumb", "photo"]
  else
    FetchResult.thrown ErrCode.INVALID_KEY_NAME ("Invalid params")

end Cloud

namespace RateLimit

/-- Modelled from the spec: the Attempt Record of section 3 (the rate-limiter
middleware wiring is documented in the README but its server entry file is
not among the sources): failures observed since the window started, and the
timestamp at which the current counting window began. -/
structure AttemptRecord where
  failureCount : Nat
  windowStart : Nat
  deriving DecidableEq

/-- Modelled from the spec: the immutable Rate Limit Policy (maxFailures,
windowDuration); the README configures maxFailures 5 and windowDuration 15
minutes. -/
structure Policy where
  maxFailures : Nat
  windowDuration : Nat
  deriving DecidableEq

/-- Modelled from the spec: the Attempt Store, a keyed map from identity
(client IP) to its Attempt Record; absent key means no record. -/
def Store : Type := String → Option AttemptRecord

/-- Store with no records. -/
def Store.empty : Store := fun _ => none

/-- Pointwise update of one key of the store. -/
def Store.update (s : Store) (ident : String) (r : Option AttemptRecord) : Store :=
  fun x => if x = ident then r else s x

/-- Modelled from the spec: getFailureCount treats an expired or absent
window as 0; a window is live while now is before windowStart plus
windowDuration. -/
def getFailureCount (p : Policy) (s : Store) (now : Nat) (ident : String) : Nat :=
  match s ident with
  | none => 0
  | some r => if now < r.windowStart + p.windowDuration then r.failureCount else 0

/-- Modelled from the spec: recordFailure atomically increments the record,
creating it with windowStart set to now if absent or expired, and returns
the new count. -/
def recordFailure (p : Policy) (s : Store) (now : Nat) (ident : String) :
    Store × Nat :=
  match s ident with
  | some r =>
      if now < r.windowStart + p.windowDuration then
        (Store.update s ident (some ⟨r.failureCount + 1, r.windowStart⟩),
         r.failureCount + 1)
      else
        (Store.update s ident (some ⟨1, now⟩), 1)
  | none => (Store.update s ident (some ⟨1, now⟩), 1)

/-- Modelled from the spec: clearIdentity atomically resets/removes the
record, used on successful authentication. -/
def clearIdentity (s : Store) (ident : String) : Store :=
  Store.update s ident none

/-- Admission decision of the Attempt Gate: Allow, or Reject carrying the
retryAfter duration until the window resets. -/
inductive Decision where
  | Allow : Decision
  | Reject : Nat → Decision
  deriving DecidableEq

/-- Modelled from the spec: the Attempt Gate check reads
getFailureCount(identity); if it is at least maxFailures it Rejects,
carrying windowStart plus windowDuration minus now; else it Allows and the
request is forwarded to the Authentication Handler unchanged. -/
def check (p : Policy) (s : Store) (now : Nat) (ident : String) : Decision :=
  if p.maxFailures ≤ getFailureCount p s now ident then
    match s ident with
    | some r => Decision.Reject (r.windowStart + p.windowDuration - now)
    | none => Decision.Allow
  else
    Decision.Allow

/-- Modelled from the spec: the tri-state classification of the
Authentication Handler result: a session token (Success), a classified
authentication error (Failure with its reason), or a handler-level fault
unrelated to credential validity (Indeterminate). -/
inductive Outcome where
  | Success : Outcome
  | Failure : String → Outcome
  | Indeterminate : Outcome

/-- Modelled from the spec: the Outcome Recorder observe step: clear on
Success, recordFailure on Failure, and skip the store update entirely on
Indeterminate. -/
def observe (p : Policy) (s : Store) (now : Nat) (ident : String)
    (o : Outcome) : Store :=
  match o with
  | Outcome.Success => clearIdentity s ident
  | Outcome.Failure _ => (recordFailure p s now ident).1
  | Outcome.Indeterminate => s

/-- A sequence of observed failures for one identity, each with its
timestamp, applied in serialization order. -/
def recordFailures (p : Policy) (s : Store) (times : List Nat)
    (ident : String) : Store :=
  match times with
  | [] => s
  | t :: ts => recordFailures p (recordFailure p s t ident).1 ts ident

/-- The README configuration: 5 failures per 15-minute (900-second) window. -/
def policy5 : Policy := ⟨5, 900⟩

theorem Store.update_self (s : Store) (ident : String)
    (r : Option AttemptRecord) : (Store.update s ident r) ident = r := by
  simp [Store.update]

theorem Store.update_other (s : Store) (ident x : String)
    (r : Option AttemptRecord) (h : x ≠ ident) :
    (Store.update s ident r) x = s x := by
  simp [Store.update, h]

theorem recordFailure_some_active (p : Policy) (s : Store) (now : Nat)
    (ident : String) (r : AttemptRecord) (h : s ident = some r)
    (ht : now < r.windowStart + p.windowDuration) :
    recordFailure p s now ident =
      (Store.update s ident (some ⟨r.failureCount + 1, r.windowStart⟩),
       r.failureCount + 1) := by
  simp [recordFailure, h, ht]

theorem recordFailure_none (p : Policy) (s : Store) (now : Nat)
    (ident : String) (h : s ident = none) :
    recordFailure p s now ident = (Store.update s ident (some ⟨1, now⟩), 1) := by
  simp [recordFailure, h]

theorem recordFailures_active (p : Policy) (ts : List Nat) :
    ∀ (s : Store) (ident : String) (c w : Nat), s ident = some ⟨c, w⟩ →
      (∀ t ∈ ts, t < w + p.windowDuration) →
      (recordFailures p s ts ident) ident = some ⟨c + ts.length, w⟩ := by
  induction ts with
  | nil =>
      intro s ident c w h _
      simpa [recordFailures] using h
  | cons t ts ih =>
      intro s ident c w h hw
      have ht : t < w + p.windowDuration := hw t (List.mem_cons_self t ts)
      have hstep := recordFailure_some_active p s t ident ⟨c, w⟩ h ht
      have h2 :
          ((recordFailure p s t ident).1) ident = some ⟨c + 1, w⟩ := by
        rw [hstep]
        exact Store.update_self s ident _
      have := ih (recordFailure p s t ident).1 ident (c + 1) w h2
        (fun t2 h2 => hw t2 (List.mem_cons_of_mem t h2))
      simpa [recordFailures, Nat.add_assoc, Nat.add_comm 1 ts.length] using this

theorem recordFailures_fresh (p : Policy) (s : Store) (ident : String)
    (t0 : Nat) (ts : List Nat) (h : s ident = none)
    (hw : ∀ t ∈ ts, t < t0 + p.windowDuration) :
    (recordFailures p s (t0 :: ts) ident) ident =
      some ⟨ts.length + 1, t0⟩ := by
  have hstep := recordFailure_none p s t0 ident h
  have h1 : ((recordFailure p s t0 ident).1) ident = some ⟨1, t0⟩ := by
    rw [hstep]
    exact Store.update_self s ident _
  have := recordFailures_active p ts (recordFailure p s t0 ident).1 ident 1 t0
    h1 hw
  simpa [recordFailures, Nat.add_comm 1 ts.length] using this

end RateLimit

namespace RateLimit

/-- Claim C1: after exactly maxFailures consecutive observed failures with no
intervening success, the next login attempt from that identity arriving
within windowDuration of the window start is Rejected, and the rejection
carries a positive retryAfter duration. -/
theorem claim1_sixth_attempt_rejected (p : Policy) (s : Store)
    (ident : String) (t0 now : Nat) (ts : List Nat)
    (h0 : s ident = none)
    (hw : ∀ t ∈ ts, t < t0 + p.windowDuration)
    (hmax : ts.length + 1 = p.maxFailures)
    (hnow : now < t0 + p.windowDuration) :
    ∃ ra, check p (recordFailures p s (t0 :: ts) ident) now ident =
      Decision.Reject ra ∧ 0 < ra := by
  have hrec := recordFailures_fresh p s ident t0 ts h0 hw
  have hcount :
      getFailureCount p (recordFailures p s (t0 :: ts) ident) now ident =
        ts.length + 1 := by
    simp [getFailureCount, hrec, hnow]
  have hle : p.maxFailures ≤ ts.length + 1 := by omega
  refine ⟨t0 + p.windowDuration - now, ?_, by omega⟩
  simp [check, hcount, hle, hrec]

theorem claim1_witness :
    ∃ ra, check policy5
        (recordFailures policy5 Store.empty [0, 10, 20, 30, 40] ("A"))
        60 ("A") = Decision.Reject ra ∧ 0 < ra :=
  claim1_sixth_attempt_rejected policy5 Store.empty ("A") 0 60
    [10, 20, 30, 40] rfl (by decide) (by decide) (by decide)

/-- Claim C2: a single observed Success resets the failure count of that
identity to 0 immediately, the identity is un-blocked at once, and a
subsequent failure yields count 1 regardless of how many failures preceded
the success. -/
theorem claim2_success_resets_count (p : Policy) (s : Store)
    (ident : String) (now now2 : Nat) (hmax : 0 < p.maxFailures) :
    getFailureCount p (observe p s now ident Outcome.Success) now ident = 0
    ∧ check p (observe p s now ident Outcome.Success) now ident =
        Decision.Allow
    ∧ (recordFailure p (observe p s now ident Outcome.Success) now2 ident).2
        = 1 := by
  have hcl : (observe p s now ident Outcome.Success) ident = none := by
    simp [observe, clearIdentity, Store.update]
  have hnle : ¬ (p.maxFailures ≤ 0) := by omega
  refine ⟨?_, ?_, ?_⟩
  · simp [getFailureCount, hcl]
  · simp [check, getFailureCount, hcl, hnle]
  · simp [recordFailure, hcl]

theorem claim2_witness :
    getFailureCount policy5
        (observe policy5 (recordFailures policy5 Store.empty [0, 1, 2] ("A"))
          5 ("A") Outcome.Success) 5 ("A") = 0
    ∧ check policy5
        (observe policy5 (recordFailures policy5 Store.empty [0, 1, 2] ("A"))
          5 ("A") Outcome.Success) 5 ("A") = Decision.Allow
    ∧ (recordFailure policy5
        (observe policy5 (recordFailures policy5 Store.empty [0, 1, 2] ("A"))
          5 ("A") Outcome.Success) 6 ("A")).2 = 1 :=
  claim2_success_resets_count policy5
    (recordFailures policy5 Store.empty [0, 1, 2] ("A")) ("A") 5 6
    (by decide)

/-- Claim C3: an Indeterminate outcome (handler-level fault unrelated to
credential validity) does not increment the failure counter and leaves the
Attempt Store entirely unchanged. -/
theorem claim3_indeterminate_leaves_store (p : Policy) (s : Store)
    (now : Nat) (ident : String) :
    observe p s now ident Outcome.Indeterminate = s
    ∧ getFailureCount p (observe p s now ident Outcome.Indeterminate)
        now ident = getFailureCount p s now ident :=
  ⟨rfl, rfl⟩

/-- Claim C4: after k consecutive observed failures with k strictly below
maxFailures and no intervening success, the Attempt Gate check on the next
attempt returns Allow; the second conjunct is the case k equal to zero. -/
theorem claim4_under_limit_allowed (p : Policy) (s : Store)
    (ident : String) (t0 now : Nat) (ts : List Nat)
    (h0 : s ident = none)
    (hw : ∀ t ∈ ts, t < t0 + p.windowDuration)
    (hk : ts.length + 1 < p.maxFailures) :
    check p (recordFailures p s (t0 :: ts) ident) now ident = Decision.Allow
    ∧ check p s now ident = Decision.Allow := by
  constructor
  · have hrec := recordFailures_fresh p s ident t0 ts h0 hw
    by_cases hnow : now < t0 + p.windowDuration
    · have hcount :
          getFailureCount p (recordFailures p s (t0 :: ts) ident) now ident =
            ts.length + 1 := by
        simp [getFailureCount, hrec, hnow]
      have hnle : ¬ (p.maxFailures ≤ ts.length + 1) := by omega
      simp [check, hcount, hnle]
    · have hcount :
          getFailureCount p (recordFailures p s (t0 :: ts) ident) now ident =
            0 := by
        simp [getFailureCount, hrec, hnow]
      have hnle : ¬ (p.maxFailures ≤ 0) := by omega
      simp [check, hcount, hnle]
  · have hcount : getFailureCount p s now ident = 0 := by
      simp [getFailureCount, h0]
    have hnle : ¬ (p.maxFailures ≤ 0) := by omega
    simp [check, hcount, hnle]

theorem claim4_witness :
    check policy5 (recordFailures policy5 Store.empty [0, 10, 20] ("A"))
      60 ("A") = Decision.Allow
    ∧ check policy5 Store.empty 60 ("A") = Decision.Allow :=
  claim4_under_limit_allowed policy5 Store.empty ("A") 0 60 [10, 20]
    rfl (by decide) (by decide)

/-- Claim C5: once windowDuration has elapsed since the window start with no
reset in between, getFailureCount returns 0, independent of the count
accumulated in the expired window; the hypothesis is vacuous for an absent
window, so an expired or absent window alike is treated as count 0. -/
theorem claim5_expired_window_zero (p : Policy) (s : Store)
    (ident : String) (now : Nat)
    (h : ∀ r : AttemptRecord, s ident = some r →
      r.windowStart + p.windowDuration ≤ now) :
    getFailureCount p s now ident = 0 := by
  cases hr : s ident with
  | none => simp [getFailureCount, hr]
  | some r =>
      have hexp := h r hr
      have hnot : ¬ (now < r.windowStart + p.windowDuration) := by omega
      simp [getFailureCount, hr, hnot]

theorem claim5_witness :
    getFailureCount policy5
      (Store.update Store.empty ("A") (some ⟨7, 0⟩)) 900 ("A") = 0 :=
  claim5_expired_window_zero policy5
    (Store.update Store.empty ("A") (some ⟨7, 0⟩)) ("A") 900
    (fun r hr => by
      rw [Store.update_self] at hr
      cases hr
      decide)

/-- Claim C6: each recordFailure call is atomic, so any concurrent execution
of N such calls for one identity with no interleaved success equals some
serialization, modelled as the list ts of timestamps in serialization order;
every serialization grows the count by exactly the number of calls (no lost
updates), from an existing record and from a fresh identity alike. -/
theorem claim6_serialized_increments (p : Policy) (s : Store)
    (ident : String) (t0 c w : Nat) (ts : List Nat) :
    (s ident = some ⟨c, w⟩ → (∀ t ∈ ts, t < w + p.windowDuration) →
      (recordFailures p s ts ident) ident = some ⟨c + ts.length, w⟩)
    ∧ (s ident = none → (∀ t ∈ ts, t < t0 + p.windowDuration) →
      (recordFailures p s (t0 :: ts) ident) ident =
        some ⟨ts.length + 1, t0⟩) :=
  ⟨fun h hw => recordFailures_active p ts s ident c w h hw,
   fun h hw => recordFailures_fresh p s ident t0 ts h hw⟩

theorem claim6_witness :
    (recordFailures policy5 Store.empty [3, 3, 3, 3] ("A")) ("A") =
      some ⟨4, 3⟩ :=
  (claim6_serialized_increments policy5 Store.empty ("A") 3 0 0
    [3, 3, 3]).2 rfl (by decide)

/-- Claim C7: every failure, success, clear or indeterminate observation
recorded for identity a leaves the record, failure count, and gate decision
of any distinct identity b unchanged; in particular while a is blocked an
attempt from b that was Allowed stays Allowed. -/
theorem claim7_identity_isolation (p : Policy) (s : Store) (a b : String)
    (now now2 : Nat) (o : Outcome) (hne : a ≠ b) :
    (observe p s now a o) b = s b
    ∧ getFailureCount p (observe p s now a o) now2 b =
        getFailureCount p s now2 b
    ∧ check p (observe p s now a o) now2 b = check p s now2 b
    ∧ (check p s now2 b = Decision.Allow →
        check p (observe p s now a o) now2 b = Decision.Allow) := by
  have hb : b ≠ a := hne.symm
  have hstore : (observe p s now a o) b = s b := by
    cases o with
    | Success => simp [observe, clearIdentity, Store.update, hb]
    | Indeterminate => rfl
    | Failure reason =>
        cases hA : s a with
        | none => simp [observe, recordFailure, hA, Store.update, hb]
        | some r =>
            by_cases hlt : now < r.windowStart + p.windowDuration <;>
              simp [observe, recordFailure, hA, hlt, Store.update, hb]
  have hcnt : getFailureCount p (observe p s now a o) now2 b =
      getFailureCount p s now2 b := by
    unfold getFailureCount
    rw [hstore]
  have hchk : check p (observe p s now a o) now2 b = check p s now2 b := by
    unfold check
    rw [hcnt, hstore]
  exact ⟨hstore, hcnt, hchk, fun h => by rw [hchk, h]⟩

theorem claim7_witness :
    (observe policy5 Store.empty 0 ("A") (Outcome.Failure ("bad password")))
        ("B") = Store.empty ("B")
    ∧ getFailureCount policy5
        (observe policy5 Store.empty 0 ("A")
          (Outcome.Failure ("bad password"))) 1 ("B") =
        getFailureCount policy5 Store.empty 1 ("B")
    ∧ check policy5
        (observe policy5 Store.empty 0 ("A")
          (Outcome.Failure ("bad password"))) 1 ("B") =
        check policy5 Store.empty 1 ("B")
    ∧ (check policy5 Store.empty 1 ("B") = Decision.Allow →
        check policy5
          (observe policy5 Store.empty 0 ("A")
            (Outcome.Failure ("bad password"))) 1 ("B") = Decision.Allow) :=
  claim7_identity_isolation policy5 Store.empty ("A") ("B") 0 1
    (Outcome.Failure ("bad password")) (by decide)

end RateLimit

namespace Cloud

theorem fetch_shape (params : Params) :
    fetchLandmarks params =
      if decide (params.length = 1) && hasKey params ("objectId") then
        (match lookupParam params ("objectId") with
         | some (JSValue.str objectId) => FetchResult.getOne objectId
         | _ => FetchResult.resolvedString ("Invalid object id"))
      else if params.isEmpty then
        FetchResult.findMany ("order")
          ["title", "short_info", "photo_thumb", "photo"]
      else
        FetchResult.thrown ErrCode.INVALID_KEY_NAME ("Invalid params") := rfl

theorem fetch_match_ne_thrown (ov : Option JSValue) (c : ErrCode)
    (m : String) :
    (match ov with
     | some (JSValue.str objectId) => FetchResult.getOne objectId
     | _ => FetchResult.resolvedString ("Invalid object id")) ≠
      FetchResult.thrown c m := by
  rcases ov with _ | v
  · simp
  · cases v <;> simp

/-- Claim C8: with params holding exactly the single key objectId bound to a
non-string value, fetchLandmarks resolves normally with the string value
Invalid object id (the comma-operator expression) and does not throw a
Parse.Error, contrary to the MISSING_OBJECT_ID throw its JSDoc documents. -/
theorem claim8_nonstring_objectid_resolves (v : JSValue)
    (h : ∀ s : String, v ≠ JSValue.str s) :
    fetchLandmarks [(("objectId"), v)] =
      FetchResult.resolvedString ("Invalid object id")
    ∧ ∀ (c : ErrCode) (m : String),
        fetchLandmarks [(("objectId"), v)] ≠ FetchResult.thrown c m := by
  have hfe : fetchLandmarks [(("objectId"), v)] =
      FetchResult.resolvedString ("Invalid object id") := by
    cases v with
    | str s => exact absurd rfl (h s)
    | num n => rfl
    | boolean b => rfl
    | null => rfl
    | undefined => rfl
  exact ⟨hfe, fun c m hc => by
    rw [hfe] at hc
    exact FetchResult.noConfusion hc⟩

theorem claim8_witness :
    (∀ s : String, JSValue.num 3 ≠ JSValue.str s)
    ∧ fetchLandmarks [(("objectId"), JSValue.num 3)] =
        FetchResult.resolvedString ("Invalid object id") :=
  ⟨fun s hv => JSValue.noConfusion hv,
   (claim8_nonstring_objectid_resolves (JSValue.num 3)
     (fun s hv => JSValue.noConfusion hv)).1⟩

/-- Claim C9: an omitted username or password parameter defaults to the
string admin in both the login and the signup cloud function, so a call
with no parameters attempts Parse.User.logIn with admin and admin, and
signup creates its user with the same defaults. -/
theorem claim9_admin_defaults (params : Params) :
    (lookupParam params ("username") = none →
      (login params).1 = JSValue.str ("admin")
      ∧ (signup params).1 = JSValue.str ("admin"))
    ∧ (lookupParam params ("password") = none →
      (login params).2 = JSValue.str ("admin")
      ∧ (signup params).2 = JSValue.str ("admin"))
    ∧ login [] = (JSValue.str ("admin"), JSValue.str ("admin"))
    ∧ signup [] = (JSValue.str ("admin"), JSValue.str ("admin")) := by
  refine ⟨fun h => ⟨?_, ?_⟩, fun h => ⟨?_, ?_⟩, rfl, rfl⟩ <;>
    simp [login, signup, destructureDefault, h]

theorem claim9_witness :
    login [] = (JSValue.str ("admin"), JSValue.str ("admin"))
    ∧ signup [] = (JSValue.str ("admin"), JSValue.str ("admin")) :=
  ⟨(claim9_admin_defaults []).2.2.1, (claim9_admin_defaults []).2.2.2⟩

/-- Claim C10: fetchLandmarks throws a Parse.Error with code
INVALID_KEY_NAME exactly when its params object is non-empty and is not
the single key objectId; with empty params it instead returns the find-many
query ascending by order selecting title, short_info, photo_thumb, photo. -/
theorem claim10_invalid_key_name_iff (params : Params) :
    ((∃ m : String, fetchLandmarks params =
        FetchResult.thrown ErrCode.INVALID_KEY_NAME m) ↔
      (params ≠ [] ∧
        ¬(params.length = 1 ∧ hasKey params ("objectId") = true)))
    ∧ fetchLandmarks [] =
        FetchResult.findMany ("order")
          ["title", "short_info", "photo_thumb", "photo"] := by
  refine ⟨?_, rfl⟩
  constructor
  · rintro ⟨m, hm⟩
    rw [fetch_shape] at hm
    by_cases h1 : (decide (params.length = 1) &&
        hasKey params ("objectId")) = true
    · rw [if_pos h1] at hm
      exact absurd hm (fetch_match_ne_thrown _ _ _)
    · rw [if_neg h1] at hm
      by_cases h2 : params.isEmpty = true
      · rw [if_pos h2] at hm
        exact FetchResult.noConfusion hm
      · constructor
        · intro hnil
          rw [hnil] at h2
          exact h2 rfl
        · intro hone
          apply h1
          simp only [Bool.and_eq_true, decide_eq_true_eq]
          exact hone
  · rintro ⟨hne, hnot⟩
    refine ⟨("Invalid params"), ?_⟩
    rw [fetch_shape]
    have h1 : ¬((decide (params.length = 1) &&
        hasKey params ("objectId")) = true) := by
      simp only [Bool.and_eq_true, decide_eq_true_eq]
      exact hnot
    have h2 : ¬(params.isEmpty = true) := by
      cases params with
      | nil => exact absurd rfl hne
      | cons a as => simp
    rw [if_neg h1, if_neg h2]

end Cloud
